import Mathlib

/-!
Verification development for the Mixo-Ads concurrency/reliability core.

The definitions below are shallow embeddings of the TypeScript source:
  * `src/utils/ErrorHandler.ts` — the `AppError` hierarchy and its helpers;
  * `src/utils/RetryStrategy.ts` — `calculateDelay`, `shouldRetry`,
    `getRetryDelay`, `withRetry`;
  * `src/api/RateLimiter.ts` — the sliding-window rate limiter;
  * `src/api/ApiClient.ts` — `Retry-After` header parsing and the 503 branch
    of `handleResponse`;
  * `src/auth/TokenManager.ts` — token life-cycle and single-flight refresh;
  * `src/sync/CampaignWorker.ts` and `src/sync/SyncOrchestrator.ts` —
    per-record sync results and the aggregate report.

JavaScript numbers are modelled as `Int` (all quantities in the source are
integral milliseconds/seconds/counts) except where `Math.random()` produces
a fractional value, which is modelled as `ℚ`.  `Math.round x` is `⌊x + 1/2⌋`
(`jsRound`), `Math.ceil` is `⌈·⌉`, and `NaN`-producing paths are modelled
with `Option` (`none` = `NaN`).
-/

namespace MixoAds

/-- JavaScript `Math.round`: round half toward positive infinity, that is
`⌊q + 1/2⌋` (stated via the executable `Rat.floor`). -/
def jsRound (q : ℚ) : Int := (q + 1/2).floor

/-- The `ErrorCode` enum from `src/types/index.ts`. -/
inductive ErrorCode where
  | AUTH_FAILED
  | TOKEN_EXPIRED
  | INVALID_CREDENTIALS
  | RATE_LIMIT_EXCEEDED
  | SERVICE_UNAVAILABLE
  | TIMEOUT
  | NETWORK_ERROR
  | API_ERROR
  | DATABASE_ERROR
  | CONNECTION_ERROR
  | QUERY_ERROR
  | SYNC_FAILED
  | FETCH_FAILED
  | MAX_RETRIES_EXCEEDED
  | VALIDATION_ERROR
  | CONFIG_ERROR
deriving DecidableEq, Repr

/-- A JavaScript `Error` value as the retry/auth code observes it: either a
plain `Error` (only its message matters, for the network-signature checks) or
an `AppError` from `src/utils/ErrorHandler.ts` with its `name`, `message`,
`code`, optional `retryAfter`, `isRetryable` flag, the `attempts` entry of its
`context` (used only by `MaxRetriesExceededError`) and optional
`originalError`. -/
inductive JsError where
  | plain (message : String)
  | app (name : String) (message : String) (code : ErrorCode)
      (retryAfter : Option Int) (isRetryable : Bool)
      (ctxAttempts : Option Nat) (original : Option JsError)

/-- The `name` property of an error (`'Error'` for a plain error). -/
def JsError.errorName : JsError → String
  | .plain _ => "Error"
  | .app n _ _ _ _ _ _ => n

/-- The `code` property, when the error is an `AppError`. -/
def JsError.errorCode : JsError → Option ErrorCode
  | .plain _ => none
  | .app _ _ c _ _ _ _ => some c

/-- The `message` property. -/
def JsError.errorMessage : JsError → String
  | .plain m => m
  | .app _ m _ _ _ _ _ => m

/-- `ServiceUnavailableError` from `ErrorHandler.ts` (code
`SERVICE_UNAVAILABLE`, status 503, retryable). -/
def serviceUnavailableError (message : String) (retryAfter : Option Int) : JsError :=
  .app "ServiceUnavailableError" message .SERVICE_UNAVAILABLE retryAfter true none none

/-- `RateLimitError` from `ErrorHandler.ts` (code `RATE_LIMIT_EXCEEDED`,
status 429, retryable, always carries `retryAfter`). -/
def rateLimitError (retryAfter : Int) (message : String) : JsError :=
  .app "RateLimitError" message .RATE_LIMIT_EXCEEDED (some retryAfter) true none none

/-- `TimeoutError` from `ErrorHandler.ts` (code `TIMEOUT`, retryable). -/
def timeoutError (message : String) : JsError :=
  .app "TimeoutError" message .TIMEOUT none true none none

/-- `MaxRetriesExceededError` from `ErrorHandler.ts`: code
`MAX_RETRIES_EXCEEDED`, not retryable, `context.attempts` set, wrapping the
last error. -/
def maxRetriesExceededError (message : String) (attempts : Nat)
    (lastError : Option JsError) : JsError :=
  .app "MaxRetriesExceededError" message .MAX_RETRIES_EXCEEDED none false
    (some attempts) lastError

/-- `AuthError` from `ErrorHandler.ts` (code `AUTH_FAILED`, retryable),
wrapping an optional original error. -/
def authError (message : String) (original : Option JsError) : JsError :=
  .app "AuthError" message .AUTH_FAILED none true none original

/-- JavaScript `String.prototype.includes`. -/
def strIncludes (s pat : String) : Bool :=
  go s.toList
where
  go : List Char → Bool
    | [] => pat.toList.isPrefixOf []
    | c :: rest => pat.toList.isPrefixOf (c :: rest) || go rest

/-- `isRetryableError` from `ErrorHandler.ts`: `AppError`s report their flag;
plain errors are retryable iff the message carries a network signature. -/
def isRetryableError : JsError → Bool
  | .app _ _ _ _ r _ _ => r
  | .plain msg =>
      strIncludes msg "ECONNREFUSED" || strIncludes msg "ENOTFOUND" ||
        strIncludes msg "ETIMEDOUT"

/-- `getRetryAfter` from `ErrorHandler.ts`: the `retryAfter` property of an
`AppError`, `undefined` otherwise. -/
def getRetryAfter : JsError → Option Int
  | .app _ _ _ ra _ _ _ => ra
  | .plain _ => none

/-- `isErrorCode` from `ErrorHandler.ts`. -/
def isErrorCode (e : JsError) (c : ErrorCode) : Bool :=
  match e with
  | .app _ _ code _ _ _ _ => code = c
  | .plain _ => false

/-- `RetryOptions` from `src/types/index.ts`. -/
structure RetryOptions where
  maxAttempts : Nat
  baseDelay : Int
  jitter : Int
  maxDelay : Int
  retryableErrors : List ErrorCode

/-- `DEFAULT_RETRY_OPTIONS` from `RetryStrategy.ts`. -/
def DEFAULT_RETRY_OPTIONS : RetryOptions :=
  { maxAttempts := 5
    baseDelay := 1000
    jitter := 250
    maxDelay := 16000
    retryableErrors := [.SERVICE_UNAVAILABLE, .TIMEOUT, .NETWORK_ERROR,
      .RATE_LIMIT_EXCEEDED, .TOKEN_EXPIRED] }

/-- `calculateDelay` from `RetryStrategy.ts`; `r` is the `Math.random()`
draw. -/
def calculateDelay (attempt : Nat) (baseDelay jitter maxDelay : Int) (r : ℚ) : Int :=
  let exponentialDelay : ℚ := (baseDelay : ℚ) * 2 ^ attempt
  let cappedDelay : ℚ := min exponentialDelay (maxDelay : ℚ)
  let jitterAmount : ℚ := r * (jitter : ℚ) * 2 - (jitter : ℚ)
  let finalDelay : ℚ := max 0 (cappedDelay + jitterAmount)
  jsRound finalDelay

/-- `shouldRetry` from `RetryStrategy.ts`. -/
def shouldRetry (error : JsError) (attempt maxAttempts : Nat)
    (retryableErrors : List ErrorCode) : Bool :=
  if attempt ≥ maxAttempts then false
  else if ¬ isRetryableError error then false
  else
    match error with
    | .app _ _ code _ _ _ _ =>
        if retryableErrors.length > 0 then retryableErrors.contains code
        else true
    | .plain _ => true

/-- `getRetryDelay` from `RetryStrategy.ts`; `r` is the `Math.random()` draw
consumed by this delay computation. -/
def getRetryDelay (error : JsError) (attempt : Nat) (options : RetryOptions)
    (r : ℚ) : Int :=
  match getRetryAfter error with
  | some retryAfter =>
      jsRound ((retryAfter : ℚ) * 1000 +
        (r * (options.jitter : ℚ) * 2 - (options.jitter : ℚ)))
  | none =>
      if isErrorCode error .SERVICE_UNAVAILABLE then
        calculateDelay attempt options.baseDelay options.jitter options.maxDelay r
      else if isErrorCode error .TIMEOUT then
        calculateDelay attempt options.baseDelay options.jitter options.maxDelay r
      else
        calculateDelay attempt options.baseDelay options.jitter options.maxDelay r

/-- The `while (attempt < opts.maxAttempts)` loop of `withRetry` from
`RetryStrategy.ts`.  `fn i` is the outcome of the `(i+1)`-th invocation of the
wrapped operation, `rand i` the `Math.random()` draw used for the delay after
a failed invocation `i`.  The fuel argument equals `maxAttempts − attempt`
(the loop condition); the fuel-0 arm is the code after the loop, reachable
only when `maxAttempts = 0` because a failure at `attempt + 1 = maxAttempts`
makes `shouldRetry` false and rethrows inside the loop.  The result pairs the
surfaced outcome with the list of delays slept between attempts. -/
def withRetryGo (fn : Nat → Except JsError α) (rand : Nat → ℚ)
    (opts : RetryOptions) : Nat → Nat → Option JsError → Except JsError α × List Int
  | _, 0, lastError =>
      (.error (maxRetriesExceededError
        ("Operation failed after " ++ toString opts.maxAttempts ++ " attempts")
        opts.maxAttempts lastError), [])
  | attempt, fuel + 1, _ =>
      match fn attempt with
      | .ok v => (.ok v, [])
      | .error e =>
          let attempt1 := attempt + 1
          if shouldRetry e attempt1 opts.maxAttempts opts.retryableErrors then
            let d := getRetryDelay e (attempt1 - 1) opts (rand attempt)
            let rest := withRetryGo fn rand opts attempt1 fuel (some e)
            (rest.1, d :: rest.2)
          else
            (.error e, [])

/-- `withRetry` from `RetryStrategy.ts` (entered with `attempt = 0` and no
`lastError`). -/
def withRetry (fn : Nat → Except JsError α) (opts : RetryOptions)
    (rand : Nat → ℚ) : Except JsError α × List Int :=
  withRetryGo fn rand opts 0 opts.maxAttempts none

/-- `RateLimitConfig` from `src/api/types.ts`. -/
structure RateLimitConfig where
  maxRequests : Int
  windowMs : Int

/-- `RateLimitInfo` from `src/api/types.ts` (`total` mirrors
`config.maxRequests`). -/
structure RateLimitInfo where
  remaining : Int
  resetAt : Int
  total : Int
deriving DecidableEq

namespace RateLimiter

/-- `cleanOldRequests` from `RateLimiter.ts`: keep the timestamps strictly
newer than `now − windowMs`. -/
def cleanOldRequests (cfg : RateLimitConfig) (now : Int) (requests : List Int) :
    List Int :=
  requests.filter (fun ts => now - cfg.windowMs < ts)

/-- `canMakeRequest` from `RateLimiter.ts` (it prunes, then compares against
the capacity; the mutated, pruned request list is the state the caller
continues with). -/
def canMakeRequest (cfg : RateLimitConfig) (now : Int) (requests : List Int) :
    Bool :=
  ((cleanOldRequests cfg now requests).length : Int) < cfg.maxRequests

/-- `getInfo` from `RateLimiter.ts`.  Returns the snapshot together with the
pruned request list (the mutation performed by its `cleanOldRequests` call).
`requests[0] || Date.now()` treats both a missing head and a `0` timestamp
(falsy in JavaScript) as `now`. -/
def getInfo (cfg : RateLimitConfig) (now : Int) (requests : List Int) :
    RateLimitInfo × List Int :=
  let pruned := cleanOldRequests cfg now requests
  let remaining := max 0 (cfg.maxRequests - (pruned.length : Int))
  let oldestRequest :=
    match pruned.head? with
    | none => now
    | some t => if t = 0 then now else t
  ({ remaining := remaining, resetAt := oldestRequest + cfg.windowMs,
     total := cfg.maxRequests }, pruned)

/-- `execute` from `RateLimiter.ts`, immediate path: prune (inside
`canMakeRequest`), then admit and record `now` iff capacity remains;
otherwise the request is queued.  Returns the admission decision and the
request list after the call. -/
def execute (cfg : RateLimitConfig) (now : Int) (requests : List Int) :
    Bool × List Int :=
  if canMakeRequest cfg now requests then
    (true, cleanOldRequests cfg now requests ++ [now])
  else
    (false, cleanOldRequests cfg now requests)

/-- `waitForReset` from `RateLimiter.ts`: a no-op when capacity remains,
otherwise sleep until `resetAt`.  Returns the clock value after the wait
(`now + max 0 (resetAt − now)`); the pruning side effect of its `getInfo`
call is reflected by callers re-pruning the list they pass in. -/
def waitForReset (cfg : RateLimitConfig) (now : Int) (requests : List Int) :
    Int :=
  let info := (getInfo cfg now requests).1
  if 0 < info.remaining then now
  else now + max 0 (info.resetAt - now)

/-- One iteration of the `processQueue` drain loop from `RateLimiter.ts` for
a non-empty queue: if the window has no capacity, wait via `waitForReset`,
then record an admission timestamp at the (possibly advanced) clock and run
the request.  Returns the admission instant and the request list after the
iteration. -/
def processQueueStep (cfg : RateLimitConfig) (now : Int) (requests : List Int) :
    Int × List Int :=
  if canMakeRequest cfg now requests then
    (now, cleanOldRequests cfg now requests ++ [now])
  else
    let requests1 := cleanOldRequests cfg now requests
    let t := waitForReset cfg now requests1
    (t, (getInfo cfg now requests1).2 ++ [t])

end RateLimiter

/-- The observable parse outcomes of a `Retry-After` header string, as used
by `ApiClient.getRetryAfter`: the result of `parseInt(s, 10)` (`none` for
`NaN`) and the result of `new Date(s).getTime()` (`none` for an invalid
date, whose `getTime()` is `NaN`). -/
structure RetryAfterHeader where
  parseIntResult : Option Int
  dateValue : Option Int
deriving DecidableEq

namespace ApiClient

/-- `getRetryAfter` from `ApiClient.ts`.  `none` input stands for an absent
(or empty, hence falsy) header.  The result is a JavaScript number where
`none` stands for `NaN`: when both parses fail, `new Date(s)` yields an
invalid date rather than throwing, so `Math.ceil(Math.max(0, NaN − now)/1000)`
is `NaN` and the `catch { return 60 }` branch is unreachable. -/
def getRetryAfter (now : Int) (header : Option RetryAfterHeader) : Option Int :=
  match header with
  | none => some 60
  | some h =>
      match h.parseIntResult with
      | some seconds => some seconds
      | none =>
          match h.dateValue with
          | some time => some ⌈(max 0 ((time : ℚ) - (now : ℚ))) / 1000⌉
          | none => none

/-- The error thrown by the 503 branch of `handleResponse` in `ApiClient.ts`
when the response body yields no message: a `ServiceUnavailableError`
carrying `getRetryAfter(response)` (which is 60 when the header is absent).
The `Option.getD 0` is never exercised for an absent header. -/
def handleResponse503 (now : Int) (header : Option RetryAfterHeader) : JsError :=
  serviceUnavailableError "Service temporarily unavailable"
    (getRetryAfter now header)

end ApiClient

/-- `Token` from `src/types/index.ts` (timestamps in seconds). -/
structure Token where
  access_token : String
  token_type : String
  expires_in : Int
  issued_at : Int
deriving DecidableEq

namespace TokenManager

/-- The mutable state of a `TokenManager` plus the instrumentation needed to
observe the single-flight property: `refreshPromise` holds the identity of
the stored refresh future (`TokenRefreshState.promise`), `nextOpId` numbers
acquisition operations, and `inFlightAuthRequests` counts the
`acquireToken` calls currently in flight against the auth endpoint. -/
structure TMState where
  token : Option Token
  isRefreshing : Bool
  refreshPromise : Option Nat
  nextOpId : Nat
  inFlightAuthRequests : Nat
deriving DecidableEq

/-- What a caller of `getToken`/`refreshToken` observes at the synchronous
prefix of the call (before any `await`): which future it will await, or the
token returned synchronously. -/
inductive TokenCallOutcome where
  | awaitOngoingRefresh (opId : Nat)
  | startedAcquisition (opId : Nat)
  | startedRefresh (opId : Nat)
  | useCurrent (t : Token)
deriving DecidableEq

/-- `isTokenExpired` from `TokenManager.ts` (`now` in seconds). -/
def isTokenExpired (now : Int) : Option Token → Bool
  | none => true
  | some t => now ≥ t.issued_at + t.expires_in

/-- `needsRefresh` from `TokenManager.ts` (refresh buffer 300 s). -/
def needsRefresh (now : Int) : Option Token → Bool
  | none => true
  | some t => now ≥ t.issued_at + t.expires_in - 300

/-- The synchronous prefix of `refreshToken` from `TokenManager.ts`: if a
refresh is already marked in flight, return its stored promise; otherwise
set the flag, store a fresh promise, and start `acquireToken` (one new
request against the auth endpoint). -/
def refreshTokenEntry (s : TMState) : TokenCallOutcome × TMState :=
  match s.isRefreshing, s.refreshPromise with
  | true, some p => (.awaitOngoingRefresh p, s)
  | _, _ =>
      (.startedRefresh s.nextOpId,
       { s with isRefreshing := true, refreshPromise := some s.nextOpId,
                nextOpId := s.nextOpId + 1,
                inFlightAuthRequests := s.inFlightAuthRequests + 1 })

/-- The synchronous prefix of `getToken` from `TokenManager.ts`: join an
ongoing refresh; otherwise, with no token stored, call `acquireToken`
directly (without touching `refreshState`); otherwise refresh when expired
or within the refresh buffer; otherwise return the current token. -/
def getTokenEntry (now : Int) (s : TMState) : TokenCallOutcome × TMState :=
  match s.isRefreshing, s.refreshPromise with
  | true, some p => (.awaitOngoingRefresh p, s)
  | _, _ =>
      match s.token with
      | none =>
          (.startedAcquisition s.nextOpId,
           { s with nextOpId := s.nextOpId + 1,
                    inFlightAuthRequests := s.inFlightAuthRequests + 1 })
      | some t =>
          if isTokenExpired now (some t) then refreshTokenEntry s
          else if needsRefresh now (some t) then refreshTokenEntry s
          else (.useCurrent t, s)

/-- The retry policy `acquireToken` passes to `withRetry` in
`TokenManager.ts` (merged over the defaults). -/
def acquireRetryOptions : RetryOptions :=
  { maxAttempts := 3, baseDelay := 1000, jitter := 250, maxDelay := 5000,
    retryableErrors := [] }

/-- `acquireToken` from `TokenManager.ts`, run to completion: the wrapped
`withRetry` either yields a token, which is stored, or throws, in which case
the stored token is untouched and an `AuthError` wrapping the failure is
thrown.  `fn i` is the outcome of the `(i+1)`-th `authenticateWithApi` call
and `rand` the stream of jitter draws. -/
def acquireTokenRun (s : TMState) (fn : Nat → Except JsError Token)
    (rand : Nat → ℚ) : Except JsError Token × TMState :=
  match (withRetry fn acquireRetryOptions rand).1 with
  | .ok t => (.ok t, { s with token := some t })
  | .error e =>
      (.error (authError "Failed to authenticate with API" (some e)), s)

end TokenManager

/-- `Campaign` from `src/types/index.ts`. -/
structure Campaign where
  id : String
  name : String
  status : String
  budget : Int
  impressions : Int
  clicks : Int
  conversions : Int
  created_at : String

/-- `SyncResult` from `src/types/index.ts`. -/
structure SyncResult where
  campaignId : String
  success : Bool
  error : Option JsError
  retries : Nat
  duration : Int

/-- The fields of `SyncReport` from `src/types/index.ts` that
`generateReport` computes (timestamps kept as integers). -/
structure SyncReport where
  startTime : Int
  endTime : Int
  duration : Int
  totalCampaigns : Nat
  successCount : Nat
  failureCount : Nat
  retryCount : Nat
  results : List SyncResult
  failures : List (String × String)

/-- `CampaignWorker.syncCampaign` from `CampaignWorker.ts`: run the injected
sync and save functions (their outcomes are the `Except` arguments); any
thrown error is caught and folded into a failure `SyncResult`, so the
function is total — it never throws.  The local `retries` counter is
initialised to 0 and never incremented. -/
def syncCampaign (campaign : Campaign) (syncOutcome saveOutcome : Except JsError Unit)
    (startTime endTime : Int) : SyncResult :=
  let retries : Nat := 0
  match syncOutcome with
  | .error e =>
      { campaignId := campaign.id, success := false, error := some e,
        retries := retries, duration := endTime - startTime }
  | .ok _ =>
      match saveOutcome with
      | .error e =>
          { campaignId := campaign.id, success := false, error := some e,
            retries := retries, duration := endTime - startTime }
      | .ok _ =>
          { campaignId := campaign.id, success := true, error := none,
            retries := retries, duration := endTime - startTime }

/-- `error?.message || 'Unknown error'` from `generateReport`. -/
def failureMessage : Option JsError → String
  | none => "Unknown error"
  | some e => if e.errorMessage = "" then "Unknown error" else e.errorMessage

/-- `SyncOrchestrator.generateReport` from `SyncOrchestrator.ts`. -/
def generateReport (startTime endTime : Int) (totalCampaigns : Nat)
    (results : List SyncResult) : SyncReport :=
  { startTime := startTime
    endTime := endTime
    duration := endTime - startTime
    totalCampaigns := totalCampaigns
    successCount := (results.filter (fun r => r.success)).length
    failureCount := (results.filter (fun r => ¬ r.success)).length
    retryCount := results.foldl (fun sum r => sum + r.retries) 0
    results := results
    failures := (results.filter (fun r => ¬ r.success)).map
      (fun r => (r.campaignId, failureMessage r.error)) }

/-- The 503 error thrown by `handleResponse` when the stubbed transport
returns 503 with no `Retry-After` header (spec scenario “exponential
backoff”). -/
def backoff503Error : JsError := ApiClient.handleResponse503 0 none

/-- Transport stub of the “exponential backoff” scenario: four consecutive
503 responses (no `Retry-After` header), then a 200 whose body is `200`. -/
def backoff503Fn : Nat → Except JsError Nat :=
  fun i => if i < 4 then .error backoff503Error else .ok 200

/-- Retry policy of the “exponential backoff” scenario: `base=100`,
`jitter=0`, `max=1600` merged over the defaults. -/
def backoff503Options : RetryOptions :=
  { maxAttempts := 5, baseDelay := 100, jitter := 0, maxDelay := 1600,
    retryableErrors := DEFAULT_RETRY_OPTIONS.retryableErrors }

theorem jsRound_eq (q : ℚ) : jsRound q = ⌊q + 1/2⌋ := by
  rw [jsRound, Rat.floor_def', ← Rat.floor_def]

theorem jsRound_intCast (z : Int) : jsRound ((z : ℚ)) = z := by
  have h : ⌊(1/2 : ℚ)⌋ = 0 := Int.floor_eq_iff.mpr (by norm_num)
  rw [jsRound_eq, Int.floor_int_add, h, add_zero]

theorem jsRound_eq_of_eq_intCast {q : ℚ} {z : Int} (h : q = (z : ℚ)) :
    jsRound q = z := by rw [h, jsRound_intCast]

theorem le_jsRound_of_le {z : Int} {q : ℚ} (h : (z : ℚ) ≤ q) : z ≤ jsRound q := by
  rw [jsRound_eq]
  exact Int.le_floor.mpr (by linarith)

theorem jsRound_le_of_le {q : ℚ} {z : Int} (h : q ≤ (z : ℚ)) : jsRound q ≤ z := by
  have h0 : ⌊(1/2 : ℚ)⌋ = 0 := Int.floor_eq_iff.mpr (by norm_num)
  calc jsRound q = ⌊q + 1/2⌋ := jsRound_eq q
    _ ≤ ⌊(z : ℚ) + 1/2⌋ := Int.floor_le_floor (by linarith)
    _ = z := by rw [Int.floor_int_add, h0, add_zero]
theorem syncCampaign_retries_zero (campaign : Campaign)
    (syncOutcome saveOutcome : Except JsError Unit) (t0 t1 : Int) :
    (syncCampaign campaign syncOutcome saveOutcome t0 t1).retries = 0 := by
  cases syncOutcome <;> cases saveOutcome <;> rfl

theorem foldl_add_retries_eq (l : List SyncResult)
    (h : ∀ r ∈ l, r.retries = 0) : ∀ a : Nat,
    l.foldl (fun sum r => sum + r.retries) a = a := by
  induction l with
  | nil => intro a; rfl
  | cons r rest ih =>
      intro a
      have hr : r.retries = 0 := h r (by simp)
      have hrest : ∀ x ∈ rest, x.retries = 0 := fun x hx => h x (by simp [hx])
      simp only [List.foldl_cons, hr, Nat.add_zero]
      exact ih hrest a

/-- C10: for every campaign and every behavior (success or thrown error) of
the injected sync and save functions, `CampaignWorker.syncCampaign` is total
— it returns a `SyncResult` instead of throwing — whose `campaignId` equals
the input campaign's id and whose `retries` field is 0; consequently the
`retryCount` of the report `SyncOrchestrator.generateReport` aggregates over
any list of such results is always 0. -/
theorem syncCampaign_id_and_zero_retries (campaign : Campaign)
    (syncOutcome saveOutcome : Except JsError Unit) (t0 t1 : Int)
    (inputs : List (Campaign × Except JsError Unit × Except JsError Unit × Int × Int))
    (s e : Int) (n : Nat) :
    (syncCampaign campaign syncOutcome saveOutcome t0 t1).campaignId = campaign.id
    ∧ (syncCampaign campaign syncOutcome saveOutcome t0 t1).retries = 0
    ∧ (generateReport s e n (inputs.map fun i =>
        syncCampaign i.1 i.2.1 i.2.2.1 i.2.2.2.1 i.2.2.2.2)).retryCount = 0 := by
  refine ⟨?_, syncCampaign_retries_zero _ _ _ _ _, ?_⟩
  · cases syncOutcome <;> cases saveOutcome <;> rfl
  · apply foldl_add_retries_eq
    intro r hr
    rcases List.mem_map.mp hr with ⟨i, _, rfl⟩
    exact syncCampaign_retries_zero _ _ _ _ _

/-- C1 (code bug): with `maxAttempts = 5` and an operation that fails every
attempt with a retryable `ServiceUnavailableError`, `withRetry` surfaces the
last underlying error itself, not a `MaxRetriesExceeded` wrapper: once
`attempt` reaches `maxAttempts`, `shouldRetry` is false and the loop
rethrows `lastError`, so the `MaxRetriesExceededError` construction after
the loop is unreachable. -/
theorem withRetry_exhaustion_surfaces_last_error :
    (withRetry (fun _ => .error (serviceUnavailableError
        "Service temporarily unavailable" none) : Nat → Except JsError Nat)
      { maxAttempts := 5, baseDelay := 1000, jitter := 250, maxDelay := 16000,
        retryableErrors := DEFAULT_RETRY_OPTIONS.retryableErrors }
      (fun _ => 0)).1
       = .error (serviceUnavailableError "Service temporarily unavailable" none)
    ∧ (serviceUnavailableError "Service temporarily unavailable" none).errorCode
       ≠ some ErrorCode.MAX_RETRIES_EXCEEDED
    ∧ (serviceUnavailableError "Service temporarily unavailable" none).errorName
       ≠ "MaxRetriesExceededError" := by
  exact ⟨rfl, by decide, by decide⟩

/-- C6 (code bug): a `Retry-After` header that is neither an integer nor a
parsable date makes `ApiClient.getRetryAfter` return `NaN` (modelled `none`),
not the documented fallback 60: `new Date(s)` yields an invalid date instead
of throwing, so `Math.ceil(Math.max(0, NaN) / 1000)` is `NaN` and the
`catch { return 60 }` is dead code. -/
theorem apiGetRetryAfter_unparsable_is_nan :
    ApiClient.getRetryAfter 1700000000000
        (some { parseIntResult := none, dateValue := none }) = none
    ∧ ApiClient.getRetryAfter 1700000000000
        (some { parseIntResult := none, dateValue := none }) ≠ some 60 := by
  exact ⟨rfl, by decide⟩

/-- C7 counterexample: two `getToken` callers that both arrive while no
token is held and no refresh is marked in flight each launch their own
token acquisition (the cold-start path calls `acquireToken` directly,
bypassing the single-flight `refreshState`), so two requests against the
authentication endpoint are in flight at once — refuting “at most one
token-acquisition request is in flight at any time”. -/
theorem getToken_cold_start_double_acquisition :
    (TokenManager.getTokenEntry 1000
        ⟨none, false, none, 0, 0⟩).1 = .startedAcquisition 0
    ∧ (TokenManager.getTokenEntry 1000
        ((TokenManager.getTokenEntry 1000 ⟨none, false, none, 0, 0⟩).2)).1
       = .startedAcquisition 1
    ∧ (TokenManager.getTokenEntry 1000
        ((TokenManager.getTokenEntry 1000 ⟨none, false, none, 0, 0⟩).2)).2.inFlightAuthRequests
       = 2
    ∧ ¬ (TokenManager.getTokenEntry 1000
        ((TokenManager.getTokenEntry 1000 ⟨none, false, none, 0, 0⟩).2)).2.inFlightAuthRequests
       ≤ 1 := by
  exact ⟨rfl, rfl, rfl, by decide⟩

/-- C7 (amended): once a refresh is marked in flight
(`refreshState.isRefreshing` with a stored promise), every overlapping
caller — through `getToken` or `refreshToken` — joins that identical stored
promise (hence observes the identical `Token` result) and starts no new
request against the authentication endpoint; the state is unchanged.  The
guarantee does not extend to cold-start `getToken` calls made while no token
is held and no refresh is marked. -/
theorem tokenManager_single_flight_join (now : Int)
    (s : TokenManager.TMState) (p : Nat)
    (h1 : s.isRefreshing = true) (h2 : s.refreshPromise = some p) :
    TokenManager.getTokenEntry now s = (.awaitOngoingRefresh p, s)
    ∧ TokenManager.refreshTokenEntry s = (.awaitOngoingRefresh p, s) := by
  obtain ⟨tok, ir, rp, ni, fl⟩ := s
  simp only at h1 h2
  subst h1; subst h2
  exact ⟨rfl, rfl⟩

theorem tokenManager_single_flight_join_witness :
    (⟨none, true, some 7, 3, 1⟩ : TokenManager.TMState).isRefreshing = true
    ∧ (⟨none, true, some 7, 3, 1⟩ : TokenManager.TMState).refreshPromise = some 7
    ∧ (TokenManager.getTokenEntry 0 ⟨none, true, some 7, 3, 1⟩
        = (.awaitOngoingRefresh 7, ⟨none, true, some 7, 3, 1⟩)
      ∧ TokenManager.refreshTokenEntry ⟨none, true, some 7, 3, 1⟩
        = (.awaitOngoingRefresh 7, ⟨none, true, some 7, 3, 1⟩)) :=
  ⟨rfl, rfl, tokenManager_single_flight_join 0 ⟨none, true, some 7, 3, 1⟩ 7 rfl rfl⟩

/-- C8 counterexample: a non-expired token inside the 300-second refresh
buffer (issued at 1000, lifetime 3600, observed at 4400 — not expired until
4600, refresh-due from 4300) is not usable through `getToken` after a failed
refresh: the failed acquisition leaves the token stored and propagates the
`AuthError`, but the subsequent `getToken` call starts another refresh
attempt instead of returning the stored token, and when that acquisition
fails too the caller again receives the error, never the token. -/
theorem getToken_buffer_refresh_failure_not_usable :
    TokenManager.isTokenExpired 4400 (some ⟨"tok", "Bearer", 3600, 1000⟩) = false
    ∧ (TokenManager.acquireTokenRun
        ⟨some ⟨"tok", "Bearer", 3600, 1000⟩, false, none, 0, 0⟩
        (fun _ => .error (.plain "boom")) (fun _ => 0)).2.token
       = some ⟨"tok", "Bearer", 3600, 1000⟩
    ∧ (TokenManager.acquireTokenRun
        ⟨some ⟨"tok", "Bearer", 3600, 1000⟩, false, none, 0, 0⟩
        (fun _ => .error (.plain "boom")) (fun _ => 0)).1
       = .error (authError "Failed to authenticate with API" (some (.plain "boom")))
    ∧ (TokenManager.getTokenEntry 4400 (TokenManager.acquireTokenRun
        ⟨some ⟨"tok", "Bearer", 3600, 1000⟩, false, none, 0, 0⟩
        (fun _ => .error (.plain "boom")) (fun _ => 0)).2).1
       = .startedRefresh 0
    ∧ (TokenManager.getTokenEntry 4400 (TokenManager.acquireTokenRun
        ⟨some ⟨"tok", "Bearer", 3600, 1000⟩, false, none, 0, 0⟩
        (fun _ => .error (.plain "boom")) (fun _ => 0)).2).1
       ≠ .useCurrent ⟨"tok", "Bearer", 3600, 1000⟩
    ∧ (TokenManager.acquireTokenRun
        (TokenManager.getTokenEntry 4400 (TokenManager.acquireTokenRun
          ⟨some ⟨"tok", "Bearer", 3600, 1000⟩, false, none, 0, 0⟩
          (fun _ => .error (.plain "boom")) (fun _ => 0)).2).2
        (fun _ => .error (.plain "boom")) (fun _ => 0)).1
       = .error (authError "Failed to authenticate with API" (some (.plain "boom"))) := by
  exact ⟨by decide, rfl, rfl, rfl, by decide, rfl⟩

/-- C8 (amended): a failed token refresh leaves the stored token untouched
and propagates an `AuthError` wrapping the failure, for every `TokenManager`
state; a subsequent `getToken` call returns the stored token synchronously
when it is non-expired and outside the 300-second refresh buffer, but a
non-expired token inside the buffer makes `getToken` attempt a fresh refresh
instead of falling back to the stored token. -/
theorem acquireToken_failure_preserves_token (s : TokenManager.TMState)
    (fn : Nat → Except JsError Token) (rand : Nat → ℚ) (e : JsError)
    (hfail : (withRetry fn TokenManager.acquireRetryOptions rand).1 = .error e) :
    (TokenManager.acquireTokenRun s fn rand).2.token = s.token
    ∧ (TokenManager.acquireTokenRun s fn rand).1
       = .error (authError "Failed to authenticate with API" (some e))
    ∧ (∀ tok : Token, ∀ now : Int, s.token = some tok → s.isRefreshing = false →
        TokenManager.isTokenExpired now (some tok) = false →
        TokenManager.needsRefresh now (some tok) = false →
        TokenManager.getTokenEntry now (TokenManager.acquireTokenRun s fn rand).2
          = (.useCurrent tok, (TokenManager.acquireTokenRun s fn rand).2))
    ∧ (∀ tok : Token, ∀ now : Int, s.token = some tok → s.isRefreshing = false →
        TokenManager.isTokenExpired now (some tok) = false →
        TokenManager.needsRefresh now (some tok) = true →
        TokenManager.getTokenEntry now (TokenManager.acquireTokenRun s fn rand).2
          = TokenManager.refreshTokenEntry
              (TokenManager.acquireTokenRun s fn rand).2) := by
  have hrun : TokenManager.acquireTokenRun s fn rand
      = (.error (authError "Failed to authenticate with API" (some e)), s) := by
    unfold TokenManager.acquireTokenRun
    rw [hfail]
  rw [hrun]
  refine ⟨rfl, rfl, ?_, ?_⟩
  · intro tok now htok hnr hexp hbuf
    obtain ⟨tk, ir, rp, ni, fl⟩ := s
    simp only at htok hnr
    subst htok; subst hnr
    simp only [TokenManager.getTokenEntry, hexp, hbuf]
    split
    · next h => cases h
    · simp [hexp, hbuf]
  · intro tok now htok hnr hexp hbuf
    obtain ⟨tk, ir, rp, ni, fl⟩ := s
    simp only at htok hnr
    subst htok; subst hnr
    simp only [TokenManager.getTokenEntry, hexp, hbuf]
    split
    · next h => cases h
    · simp [hexp, hbuf]

theorem acquireToken_failure_preserves_token_witness :
    (withRetry (fun _ => .error (.plain "boom") : Nat → Except JsError Token)
        TokenManager.acquireRetryOptions (fun _ => 0)).1 = .error (.plain "boom")
    ∧ (TokenManager.acquireTokenRun
        ⟨some ⟨"tok", "Bearer", 3600, 1000⟩, false, none, 0, 0⟩
        (fun _ => .error (.plain "boom")) (fun _ => 0)).2.token
       = (⟨some ⟨"tok", "Bearer", 3600, 1000⟩, false, none, 0, 0⟩ :
           TokenManager.TMState).token
    ∧ (TokenManager.acquireTokenRun
        ⟨some ⟨"tok", "Bearer", 3600, 1000⟩, false, none, 0, 0⟩
        (fun _ => .error (.plain "boom")) (fun _ => 0)).1
       = .error (authError "Failed to authenticate with API" (some (.plain "boom")))
    ∧ TokenManager.getTokenEntry 2000 (TokenManager.acquireTokenRun
        ⟨some ⟨"tok", "Bearer", 3600, 1000⟩, false, none, 0, 0⟩
        (fun _ => .error (.plain "boom")) (fun _ => 0)).2
       = (.useCurrent ⟨"tok", "Bearer", 3600, 1000⟩,
          (TokenManager.acquireTokenRun
            ⟨some ⟨"tok", "Bearer", 3600, 1000⟩, false, none, 0, 0⟩
            (fun _ => .error (.plain "boom")) (fun _ => 0)).2)
    ∧ TokenManager.getTokenEntry 4400 (TokenManager.acquireTokenRun
        ⟨some ⟨"tok", "Bearer", 3600, 1000⟩, false, none, 0, 0⟩
        (fun _ => .error (.plain "boom")) (fun _ => 0)).2
       = TokenManager.refreshTokenEntry (TokenManager.acquireTokenRun
           ⟨some ⟨"tok", "Bearer", 3600, 1000⟩, false, none, 0, 0⟩
           (fun _ => .error (.plain "boom")) (fun _ => 0)).2 :=
  ⟨rfl,
   (acquireToken_failure_preserves_token
     ⟨some ⟨"tok", "Bearer", 3600, 1000⟩, false, none, 0, 0⟩
     (fun _ => .error (.plain "boom")) (fun _ => 0) (.plain "boom") rfl).1,
   (acquireToken_failure_preserves_token
     ⟨some ⟨"tok", "Bearer", 3600, 1000⟩, false, none, 0, 0⟩
     (fun _ => .error (.plain "boom")) (fun _ => 0) (.plain "boom") rfl).2.1,
   (acquireToken_failure_preserves_token
     ⟨some ⟨"tok", "Bearer", 3600, 1000⟩, false, none, 0, 0⟩
     (fun _ => .error (.plain "boom")) (fun _ => 0) (.plain "boom") rfl).2.2.1
     ⟨"tok", "Bearer", 3600, 1000⟩ 2000 rfl rfl (by decide) (by decide),
   (acquireToken_failure_preserves_token
     ⟨some ⟨"tok", "Bearer", 3600, 1000⟩, false, none, 0, 0⟩
     (fun _ => .error (.plain "boom")) (fun _ => 0) (.plain "boom") rfl).2.2.2
     ⟨"tok", "Bearer", 3600, 1000⟩ 4400 rfl rfl (by decide) (by decide)⟩

/-- C2 counterexample: a `retry_after_seconds` hint of 0 together with the
default jitter of 250 and a jitter draw of 0 (that is, jitter component
−250) makes `getRetryDelay` return −250, a negative delay: the hint path
has no clamping to 0. -/
theorem getRetryDelay_zero_hint_negative :
    getRetryDelay (rateLimitError 0 "Rate limit exceeded") 0
        DEFAULT_RETRY_OPTIONS 0 = -250
    ∧ ¬ (0 ≤ getRetryDelay (rateLimitError 0 "Rate limit exceeded") 0
        DEFAULT_RETRY_OPTIONS 0) := by
  have h : getRetryDelay (rateLimitError 0 "Rate limit exceeded") 0
      DEFAULT_RETRY_OPTIONS 0 = -250 := by
    simp only [getRetryDelay, getRetryAfter, rateLimitError, DEFAULT_RETRY_OPTIONS]
    exact jsRound_eq_of_eq_intCast (by norm_num)
  exact ⟨h, by rw [h]; decide⟩

/-- C2 (amended): when the classified error carries a `retry_after_seconds`
hint, the delay computed by `getRetryDelay` equals
`round(hint · 1000 + jitter_component)` where the jitter component is the
draw `r·jitter·2 − jitter`; this value is ≥ 0 whenever
`jitter ≤ hint · 1000` (in particular for every hint ≥ 1 under the default
jitter of 250), but it is not clamped, so a hint of 0 with a negative
jitter draw yields a negative delay. -/
theorem getRetryDelay_hint_override (e : JsError) (h : Int) (a : Nat)
    (opts : RetryOptions) (r : ℚ)
    (hra : getRetryAfter e = some h) (hr0 : 0 ≤ r) :
    getRetryDelay e a opts r
      = jsRound ((h : ℚ) * 1000 + (r * (opts.jitter : ℚ) * 2 - (opts.jitter : ℚ)))
    ∧ (0 ≤ opts.jitter → (opts.jitter : ℚ) ≤ (h : ℚ) * 1000 →
        0 ≤ getRetryDelay e a opts r) := by
  have heq : getRetryDelay e a opts r
      = jsRound ((h : ℚ) * 1000 + (r * (opts.jitter : ℚ) * 2 - (opts.jitter : ℚ))) := by
    unfold getRetryDelay
    rw [hra]
  refine ⟨heq, fun hj hjh => ?_⟩
  rw [heq]
  have hj' : (0 : ℚ) ≤ (opts.jitter : ℚ) := by exact_mod_cast hj
  have hmul : 0 ≤ r * (opts.jitter : ℚ) * 2 := by positivity
  exact le_jsRound_of_le (by push_cast; linarith)

theorem getRetryDelay_hint_override_witness :
    getRetryAfter (rateLimitError 2 "Rate limit exceeded") = some 2
    ∧ (0 : ℚ) ≤ 1/2
    ∧ (getRetryDelay (rateLimitError 2 "Rate limit exceeded") 0
          DEFAULT_RETRY_OPTIONS (1/2)
        = jsRound (((2 : Int) : ℚ) * 1000 +
            ((1/2) * ((DEFAULT_RETRY_OPTIONS.jitter : Int) : ℚ) * 2
              - ((DEFAULT_RETRY_OPTIONS.jitter : Int) : ℚ)))
      ∧ (0 ≤ DEFAULT_RETRY_OPTIONS.jitter →
          ((DEFAULT_RETRY_OPTIONS.jitter : Int) : ℚ) ≤ ((2 : Int) : ℚ) * 1000 →
          0 ≤ getRetryDelay (rateLimitError 2 "Rate limit exceeded") 0
            DEFAULT_RETRY_OPTIONS (1/2))) :=
  ⟨rfl, by norm_num,
   getRetryDelay_hint_override (rateLimitError 2 "Rate limit exceeded") 2 0
     DEFAULT_RETRY_OPTIONS (1/2) rfl (by norm_num)⟩

/-- C9 counterexample: with `base=100, jitter=0, max=1600` and a transport
that returns four 503s without `Retry-After` and then a 200, the
per-attempt delays are not 100, 200, 400, 800 ms: each 503 is given the
default hint `retryAfter = 60` by the pipeline, so the hint path overrides
exponential backoff. -/
theorem backoff503_delays_not_exponential :
    (withRetry backoff503Fn backoff503Options (fun _ => 0)).2
      ≠ [100, 200, 400, 800] := by
  have h2 : (withRetry backoff503Fn backoff503Options (fun _ => 0)).2
      = [getRetryDelay backoff503Error 0 backoff503Options 0,
         getRetryDelay backoff503Error 1 backoff503Options 0,
         getRetryDelay backoff503Error 2 backoff503Options 0,
         getRetryDelay backoff503Error 3 backoff503Options 0] := rfl
  have hd : ∀ i : Nat, getRetryDelay backoff503Error i backoff503Options 0 = 60000 := by
    intro i
    simp only [getRetryDelay, backoff503Error, ApiClient.handleResponse503,
      ApiClient.getRetryAfter, serviceUnavailableError, getRetryAfter,
      backoff503Options]
    exact jsRound_eq_of_eq_intCast (by norm_num)
  rw [h2, hd 0, hd 1, hd 2, hd 3]
  decide

/-- C9 (amended): in the “exponential backoff” scenario (four 503s without
`Retry-After`, then 200, policy `base=100, jitter=0, max=1600`,
`maxAttempts=5`), the request succeeds and the four per-attempt delays are
each 60000 ms: `handleResponse` attaches the default `Retry-After` value 60
to a 503 lacking the header, and `getRetryDelay`'s server-hint path
(`60 · 1000 + 0` jitter) then overrides exponential backoff. -/
theorem backoff503_delays_hint_override :
    withRetry backoff503Fn backoff503Options (fun _ => 0)
      = (.ok 200, [60000, 60000, 60000, 60000]) := by
  have h1 : (withRetry backoff503Fn backoff503Options (fun _ => 0)).1
      = .ok 200 := rfl
  have h2 : (withRetry backoff503Fn backoff503Options (fun _ => 0)).2
      = [getRetryDelay backoff503Error 0 backoff503Options 0,
         getRetryDelay backoff503Error 1 backoff503Options 0,
         getRetryDelay backoff503Error 2 backoff503Options 0,
         getRetryDelay backoff503Error 3 backoff503Options 0] := rfl
  have hd : ∀ i : Nat, getRetryDelay backoff503Error i backoff503Options 0 = 60000 := by
    intro i
    simp only [getRetryDelay, backoff503Error, ApiClient.handleResponse503,
      ApiClient.getRetryAfter, serviceUnavailableError, getRetryAfter,
      backoff503Options]
    exact jsRound_eq_of_eq_intCast (by norm_num)
  have := h2
  rw [hd 0, hd 1, hd 2, hd 3] at this
  exact Prod.ext h1 this

/-- C3: with non-negative policy parameters and a jitter draw in `[0, 1)`,
the delay computed by `calculateDelay` at attempt index `a` lies in the
closed interval
`[max(0, min(base·2^a, max_delay) − jitter), min(base·2^a, max_delay) + jitter]`. -/
theorem calculateDelay_bounds (a : Nat) (base jitter maxD : Int) (r : ℚ)
    (hb : 0 ≤ base) (hj : 0 ≤ jitter) (hm : 0 ≤ maxD)
    (hr0 : 0 ≤ r) (hr1 : r < 1) :
    max 0 (min (base * 2 ^ a) maxD - jitter) ≤ calculateDelay a base jitter maxD r
    ∧ calculateDelay a base jitter maxD r ≤ min (base * 2 ^ a) maxD + jitter := by
  have hbq : (0:ℚ) ≤ (base : ℚ) := by exact_mod_cast hb
  have hjq : (0:ℚ) ≤ (jitter : ℚ) := by exact_mod_cast hj
  have hmq : (0:ℚ) ≤ (maxD : ℚ) := by exact_mod_cast hm
  have hkey : calculateDelay a base jitter maxD r
      = jsRound (max 0 (min ((base:ℚ) * 2 ^ a) (maxD:ℚ)
          + (r * (jitter:ℚ) * 2 - (jitter:ℚ)))) := rfl
  have hC0 : (0:ℚ) ≤ min ((base:ℚ) * 2 ^ a) (maxD:ℚ) :=
    le_min (by positivity) hmq
  have hjA1 : -(jitter:ℚ) ≤ r * (jitter:ℚ) * 2 - (jitter:ℚ) := by
    have : (0:ℚ) ≤ r * (jitter:ℚ) * 2 := by positivity
    linarith
  have hjA2 : r * (jitter:ℚ) * 2 - (jitter:ℚ) ≤ (jitter:ℚ) := by
    have := mul_le_of_le_one_left hjq hr1.le
    linarith
  constructor
  · rw [hkey]
    apply le_jsRound_of_le
    have hcast : ((max 0 (min (base * 2 ^ a) maxD - jitter) : Int) : ℚ)
        = max 0 (min ((base:ℚ) * 2 ^ a) (maxD:ℚ) - (jitter:ℚ)) := by
      push_cast
      rfl
    rw [hcast]
    exact max_le_max le_rfl (by linarith)
  · rw [hkey]
    apply jsRound_le_of_le
    have hcast : ((min (base * 2 ^ a) maxD + jitter : Int) : ℚ)
        = min ((base:ℚ) * 2 ^ a) (maxD:ℚ) + (jitter:ℚ) := by
      push_cast
      rfl
    rw [hcast]
    have h1 : max 0 (min ((base:ℚ) * 2 ^ a) (maxD:ℚ)
          + (r * (jitter:ℚ) * 2 - (jitter:ℚ)))
        ≤ max 0 (min ((base:ℚ) * 2 ^ a) (maxD:ℚ) + (jitter:ℚ)) :=
      max_le_max le_rfl (by linarith)
    have h2 : max 0 (min ((base:ℚ) * 2 ^ a) (maxD:ℚ) + (jitter:ℚ))
        = min ((base:ℚ) * 2 ^ a) (maxD:ℚ) + (jitter:ℚ) :=
      max_eq_right (by linarith)
    rw [h2] at h1
    exact h1

theorem calculateDelay_bounds_witness :
    (0:Int) ≤ 100 ∧ (0:Int) ≤ 0 ∧ (0:Int) ≤ 1600 ∧ (0:ℚ) ≤ 0 ∧ (0:ℚ) < 1
    ∧ (max 0 (min (100 * 2 ^ 1) 1600 - 0) ≤ calculateDelay 1 100 0 1600 0
      ∧ calculateDelay 1 100 0 1600 0 ≤ min (100 * 2 ^ 1) 1600 + 0) :=
  ⟨by decide, by decide, by decide, by norm_num, by norm_num,
   calculateDelay_bounds 1 100 0 1600 0 (by decide) (by decide) (by decide)
     (by norm_num) (by norm_num)⟩

theorem getInfo_snd (cfg : RateLimitConfig) (now : Int) (l : List Int) :
    (RateLimiter.getInfo cfg now l).2 = RateLimiter.cleanOldRequests cfg now l := rfl

theorem getInfo_remaining (cfg : RateLimitConfig) (now : Int) (l : List Int) :
    (RateLimiter.getInfo cfg now l).1.remaining
      = max 0 (cfg.maxRequests - ((RateLimiter.cleanOldRequests cfg now l).length : Int)) := rfl

theorem getInfo_resetAt (cfg : RateLimitConfig) (now : Int) (l : List Int) :
    (RateLimiter.getInfo cfg now l).1.resetAt
      = (match (RateLimiter.cleanOldRequests cfg now l).head? with
          | none => now
          | some ts => if ts = 0 then now else ts) + cfg.windowMs := rfl

theorem waitForReset_eq (cfg : RateLimitConfig) (now : Int) (l : List Int) :
    RateLimiter.waitForReset cfg now l
      = if 0 < (RateLimiter.getInfo cfg now l).1.remaining then now
        else now + max 0 ((RateLimiter.getInfo cfg now l).1.resetAt - now) := rfl

theorem processQueueStep_eq (cfg : RateLimitConfig) (now : Int) (l : List Int) :
    RateLimiter.processQueueStep cfg now l
      = if RateLimiter.canMakeRequest cfg now l
        then (now, RateLimiter.cleanOldRequests cfg now l ++ [now])
        else (RateLimiter.waitForReset cfg now (RateLimiter.cleanOldRequests cfg now l),
              (RateLimiter.getInfo cfg now (RateLimiter.cleanOldRequests cfg now l)).2
                ++ [RateLimiter.waitForReset cfg now
                      (RateLimiter.cleanOldRequests cfg now l)]) := rfl

/-- C4 counterexample: on an empty rate limiter (capacity 10, window
60000 ms) at time 1000, the snapshot's `resetAt` is `now + window = 61000`,
not the current time 1000 that the claim states for the empty case. -/
theorem getInfo_resetAt_empty_not_now :
    (RateLimiter.getInfo ⟨10, 60000⟩ 1000 []).1.resetAt = 61000
    ∧ (RateLimiter.getInfo ⟨10, 60000⟩ 1000 []).1.resetAt ≠ 1000 := by
  exact ⟨rfl, by decide⟩

/-- C4 (amended): for a rate limiter state whose post-prune timestamp count
does not exceed the capacity and whose timestamps are positive, the snapshot
returns `remaining = capacity − active_count` (the `Math.max(0, ·)` clamp is
inert) and `reset_at = oldest surviving timestamp + window`, where the
oldest timestamp is taken to be the current time when the list is empty —
so `reset_at = now + window` in the empty case, not `now`. -/
theorem getInfo_snapshot (cfg : RateLimitConfig) (now : Int) (requests : List Int)
    (hlen : ((RateLimiter.cleanOldRequests cfg now requests).length : Int)
        ≤ cfg.maxRequests)
    (hpos : ∀ ts ∈ requests, 0 < ts) :
    (RateLimiter.getInfo cfg now requests).1.remaining
      = cfg.maxRequests - ((RateLimiter.cleanOldRequests cfg now requests).length : Int)
    ∧ (RateLimiter.getInfo cfg now requests).1.resetAt
      = (RateLimiter.cleanOldRequests cfg now requests).headD now + cfg.windowMs := by
  constructor
  · rw [getInfo_remaining]
    exact max_eq_right (by omega)
  · rw [getInfo_resetAt]
    cases hl : RateLimiter.cleanOldRequests cfg now requests with
    | nil => rfl
    | cons t0 rest =>
        have ht0 : t0 ∈ requests := by
          have hmem : t0 ∈ RateLimiter.cleanOldRequests cfg now requests := by
            rw [hl]; exact List.mem_cons_self t0 rest
          unfold RateLimiter.cleanOldRequests at hmem
          exact (List.mem_filter.mp hmem).1
        have ht0pos : 0 < t0 := hpos t0 ht0
        simp only [List.head?_cons, List.headD_cons]
        rw [if_neg (by omega)]

theorem getInfo_snapshot_witness :
    ((RateLimiter.cleanOldRequests ⟨2, 100⟩ 1000 [950]).length : Int) ≤ 2
    ∧ (∀ ts ∈ [(950:Int)], 0 < ts)
    ∧ ((RateLimiter.getInfo ⟨2, 100⟩ 1000 [950]).1.remaining
        = 2 - ((RateLimiter.cleanOldRequests ⟨2, 100⟩ 1000 [950]).length : Int)
      ∧ (RateLimiter.getInfo ⟨2, 100⟩ 1000 [950]).1.resetAt
        = (RateLimiter.cleanOldRequests ⟨2, 100⟩ 1000 [950]).headD 1000 + 100) :=
  ⟨by decide, by decide,
   getInfo_snapshot ⟨2, 100⟩ 1000 [950] (by decide) (by decide)⟩

theorem length_filter_le_of_imp {p q : Int → Bool} (l : List Int)
    (h : ∀ x, p x = true → q x = true) :
    (l.filter p).length ≤ (l.filter q).length := by
  induction l with
  | nil => exact Nat.le_refl _
  | cons a t ih =>
      cases hp : p a with
      | false =>
          cases hq : q a with
          | false => simpa [List.filter_cons, hp, hq] using ih
          | true =>
              simp only [List.filter_cons, hp, hq]
              simp only [Bool.false_eq_true, if_false, if_true, List.length_cons]
              exact Nat.le_succ_of_le ih
      | true =>
          have hq := h a hp
          simp only [List.filter_cons, hp, hq, if_true, List.length_cons]
          exact Nat.succ_le_succ ih

theorem cleanOldRequests_antitone (cfg : RateLimitConfig) {t0 t : Int}
    (h : t0 ≤ t) (l : List Int) :
    (RateLimiter.cleanOldRequests cfg t l).length
      ≤ (RateLimiter.cleanOldRequests cfg t0 l).length := by
  apply length_filter_le_of_imp
  intro x hx
  have hx' : t - cfg.windowMs < x := of_decide_eq_true hx
  exact decide_eq_true (by omega)

theorem cleanOldRequests_idem (cfg : RateLimitConfig) (now : Int) (l : List Int) :
    RateLimiter.cleanOldRequests cfg now (RateLimiter.cleanOldRequests cfg now l)
      = RateLimiter.cleanOldRequests cfg now l := by
  unfold RateLimiter.cleanOldRequests
  apply List.filter_eq_self.mpr
  intro a ha
  exact (List.mem_filter.mp ha).2

theorem mem_cleanOldRequests {cfg : RateLimitConfig} {now : Int} {l : List Int}
    {a : Int} (h : a ∈ RateLimiter.cleanOldRequests cfg now l) :
    a ∈ l ∧ now - cfg.windowMs < a := by
  unfold RateLimiter.cleanOldRequests at h
  have hm := List.mem_filter.mp h
  exact ⟨hm.1, of_decide_eq_true hm.2⟩

theorem cleanOldRequests_append (cfg : RateLimitConfig) (now : Int)
    (l1 l2 : List Int) :
    RateLimiter.cleanOldRequests cfg now (l1 ++ l2)
      = RateLimiter.cleanOldRequests cfg now l1
        ++ RateLimiter.cleanOldRequests cfg now l2 := by
  unfold RateLimiter.cleanOldRequests
  exact List.filter_append _ _

/-- C5: for every reachable rate-limiter state (positive capacity and window
from the validated configuration, positive recorded timestamps, and the
post-prune count within capacity) and all later times `t` and `u`:
the immediate `execute` path admits a request iff the post-prune count is
strictly below capacity, and afterwards at most `capacity` timestamps
survive pruning at any time `t ≥ now`; one `processQueue` drain iteration
admits its request at an instant (`now`, or after `waitForReset`) at which
the pre-record post-prune count is strictly below capacity, and afterwards
at most `capacity` timestamps survive pruning at any time `u` past the
admission instant. -/
theorem rateLimiter_sliding_window_invariant
    (cfg : RateLimitConfig) (now t u : Int) (requests : List Int)
    (hcap : 0 < cfg.maxRequests)
    (hpos : ∀ ts ∈ requests, 0 < ts)
    (hinv : ((RateLimiter.cleanOldRequests cfg now requests).length : Int)
        ≤ cfg.maxRequests)
    (hnt : now ≤ t)
    (hu : (RateLimiter.processQueueStep cfg now requests).1 ≤ u) :
    ((RateLimiter.execute cfg now requests).1 = true
        ↔ ((RateLimiter.cleanOldRequests cfg now requests).length : Int)
            < cfg.maxRequests)
    ∧ ((RateLimiter.cleanOldRequests cfg t
          (RateLimiter.execute cfg now requests).2).length : Int)
        ≤ cfg.maxRequests
    ∧ now ≤ (RateLimiter.processQueueStep cfg now requests).1
    ∧ ((RateLimiter.cleanOldRequests cfg
          (RateLimiter.processQueueStep cfg now requests).1
          (RateLimiter.cleanOldRequests cfg now requests)).length : Int)
        < cfg.maxRequests
    ∧ ((RateLimiter.cleanOldRequests cfg u
          (RateLimiter.processQueueStep cfg now requests).2).length : Int)
        ≤ cfg.maxRequests := by
  have hidem := cleanOldRequests_idem cfg now requests
  by_cases hc : RateLimiter.canMakeRequest cfg now requests
  · -- capacity available: both paths admit at `now`
    have hlt : ((RateLimiter.cleanOldRequests cfg now requests).length : Int)
        < cfg.maxRequests := by
      have := of_decide_eq_true hc
      exact this
    have hex : RateLimiter.execute cfg now requests
        = (true, RateLimiter.cleanOldRequests cfg now requests ++ [now]) := by
      unfold RateLimiter.execute
      rw [if_pos hc]
    have hps : RateLimiter.processQueueStep cfg now requests
        = (now, RateLimiter.cleanOldRequests cfg now requests ++ [now]) := by
      unfold RateLimiter.processQueueStep
      rw [if_pos hc]
    have hafter : ∀ v : Int, now ≤ v →
        ((RateLimiter.cleanOldRequests cfg v
          (RateLimiter.cleanOldRequests cfg now requests ++ [now])).length : Int)
          ≤ cfg.maxRequests := by
      intro v hv
      rw [cleanOldRequests_append]
      have h1 : (RateLimiter.cleanOldRequests cfg v
            (RateLimiter.cleanOldRequests cfg now requests)).length
          ≤ (RateLimiter.cleanOldRequests cfg now
            (RateLimiter.cleanOldRequests cfg now requests)).length :=
        cleanOldRequests_antitone cfg hv _
      rw [hidem] at h1
      have h2 : (RateLimiter.cleanOldRequests cfg v [now]).length ≤ 1 := by
        have := List.length_filter_le
          (fun ts => decide (v - cfg.windowMs < ts)) [now]
        simpa [RateLimiter.cleanOldRequests] using this
      rw [List.length_append]
      push_cast
      omega
    refine ⟨?_, ?_, ?_, ?_, ?_⟩
    · rw [hex]; exact ⟨fun _ => hlt, fun _ => rfl⟩
    · rw [hex]; exact hafter t hnt
    · rw [hps]
    · rw [hps, hidem]; exact hlt
    · rw [hps]
      rw [hps] at hu
      exact hafter u hu
  · -- window full: the drain path waits until the oldest timestamp expires
    have hge : cfg.maxRequests
        ≤ ((RateLimiter.cleanOldRequests cfg now requests).length : Int) := by
      unfold RateLimiter.canMakeRequest at hc
      simp only [decide_eq_true_eq] at hc
      omega
    obtain ⟨t0, rest, hl⟩ : ∃ t0 rest,
        RateLimiter.cleanOldRequests cfg now requests = t0 :: rest := by
      cases hl : RateLimiter.cleanOldRequests cfg now requests with
      | nil => rw [hl] at hge; simp at hge; omega
      | cons t0 rest => exact ⟨t0, rest, rfl⟩
    have ht0mem : t0 ∈ requests ∧ now - cfg.windowMs < t0 :=
      mem_cleanOldRequests (by rw [hl]; exact List.mem_cons_self t0 rest)
    have ht0pos : 0 < t0 := hpos t0 ht0mem.1
    have hrem : (RateLimiter.getInfo cfg now
        (RateLimiter.cleanOldRequests cfg now requests)).1.remaining = 0 := by
      rw [getInfo_remaining, hidem]
      exact max_eq_left (by omega)
    have hreset : (RateLimiter.getInfo cfg now
        (RateLimiter.cleanOldRequests cfg now requests)).1.resetAt
        = t0 + cfg.windowMs := by
      rw [getInfo_resetAt, hidem, hl]
      simp only [List.head?_cons]
      rw [if_neg (by omega)]
    have hwait : RateLimiter.waitForReset cfg now
        (RateLimiter.cleanOldRequests cfg now requests) = t0 + cfg.windowMs := by
      rw [waitForReset_eq, hrem, hreset]
      rw [if_neg (by omega)]
      have hmax : max 0 (t0 + cfg.windowMs - now) = t0 + cfg.windowMs - now :=
        max_eq_right (by omega)
      omega
    have hps : RateLimiter.processQueueStep cfg now requests
        = (t0 + cfg.windowMs,
           RateLimiter.cleanOldRequests cfg now requests ++ [t0 + cfg.windowMs]) := by
      rw [processQueueStep_eq, if_neg hc, getInfo_snd, hidem, hwait]
    have hex : RateLimiter.execute cfg now requests
        = (false, RateLimiter.cleanOldRequests cfg now requests) := by
      unfold RateLimiter.execute
      rw [if_neg hc]
    have hdrop : ((RateLimiter.cleanOldRequests cfg (t0 + cfg.windowMs)
        (RateLimiter.cleanOldRequests cfg now requests)).length : Int)
          < cfg.maxRequests := by
      rw [hl]
      unfold RateLimiter.cleanOldRequests
      rw [List.filter_cons]
      rw [if_neg (by simp)]
      have hr : (List.filter (fun ts => decide (t0 + cfg.windowMs - cfg.windowMs < ts)) rest).length
          ≤ rest.length := List.length_filter_le _ rest
      have hlen : ((t0 :: rest).length : Int) ≤ cfg.maxRequests := by
        rw [← hl]; exact hinv
      simp only [List.length_cons] at hlen
      omega
    refine ⟨?_, ?_, ?_, ?_, ?_⟩
    · rw [hex]
      constructor
      · intro h; cases h
      · intro h; exfalso; omega
    · rw [hex]
      have h1 : (RateLimiter.cleanOldRequests cfg t
            (RateLimiter.cleanOldRequests cfg now requests)).length
          ≤ (RateLimiter.cleanOldRequests cfg now
            (RateLimiter.cleanOldRequests cfg now requests)).length :=
        cleanOldRequests_antitone cfg hnt _
      rw [hidem] at h1
      push_cast
      omega
    · rw [hps]; omega
    · rw [hps]; exact hdrop
    · rw [hps]
      rw [hps] at hu
      rw [cleanOldRequests_append]
      have h1 : (RateLimiter.cleanOldRequests cfg u
            (RateLimiter.cleanOldRequests cfg now requests)).length
          ≤ (RateLimiter.cleanOldRequests cfg (t0 + cfg.windowMs)
            (RateLimiter.cleanOldRequests cfg now requests)).length :=
        cleanOldRequests_antitone cfg hu _
      have h2 : (RateLimiter.cleanOldRequests cfg u [t0 + cfg.windowMs]).length ≤ 1 := by
        have := List.length_filter_le
          (fun ts => decide (u - cfg.windowMs < ts)) [t0 + cfg.windowMs]
        simpa [RateLimiter.cleanOldRequests] using this
      rw [List.length_append]
      push_cast at hdrop ⊢
      omega

theorem rateLimiter_sliding_window_invariant_witness :
    (0:Int) < 1
    ∧ (∀ ts ∈ [(95:Int)], 0 < ts)
    ∧ ((RateLimiter.cleanOldRequests ⟨1, 10⟩ 100 [95]).length : Int) ≤ 1
    ∧ (100:Int) ≤ 100
    ∧ (RateLimiter.processQueueStep ⟨1, 10⟩ 100 [95]).1 ≤ 105
    ∧ (((RateLimiter.execute ⟨1, 10⟩ 100 [95]).1 = true
          ↔ ((RateLimiter.cleanOldRequests ⟨1, 10⟩ 100 [95]).length : Int) < 1)
      ∧ ((RateLimiter.cleanOldRequests ⟨1, 10⟩ 100
            (RateLimiter.execute ⟨1, 10⟩ 100 [95]).2).length : Int) ≤ 1
      ∧ (100:Int) ≤ (RateLimiter.processQueueStep ⟨1, 10⟩ 100 [95]).1
      ∧ ((RateLimiter.cleanOldRequests ⟨1, 10⟩
            (RateLimiter.processQueueStep ⟨1, 10⟩ 100 [95]).1
            (RateLimiter.cleanOldRequests ⟨1, 10⟩ 100 [95])).length : Int) < 1
      ∧ ((RateLimiter.cleanOldRequests ⟨1, 10⟩ 105
            (RateLimiter.processQueueStep ⟨1, 10⟩ 100 [95]).2).length : Int) ≤ 1) :=
  ⟨by decide, by decide, by decide, by decide, by decide,
   rateLimiter_sliding_window_invariant ⟨1, 10⟩ 100 100 105 [95]
     (by decide) (by decide) (by decide) (by decide) (by decide)⟩

end MixoAds
